import Mathlib

/-!
Shallow embedding of the parqeye navigation / viewport-synchronization core
(src/app.rs, src/ui.rs, src/tabs/sql.rs, src/file/sql.rs), together with
proofs of the specification claims about it.

Machine integers (`usize`) are embedded as `Nat`; Rust `saturating_sub` is
`Nat` subtraction; fallible collaborators return `Except`.  Components of the
repository whose source files are not available (the tab manager, the sample
data provider, the non-SQL tab handlers) are modelled from the specification
and marked as such in their doc comments.
-/

/-! ### Key events (crossterm), restricted to the codes the program inspects -/

/-- Key codes inspected by the program; `other` stands for every other
crossterm code, all of which fall into catch-all match arms. -/
inductive KeyCode where
  | esc
  | enter
  | backspace
  | tab
  | backTab
  | up
  | down
  | left
  | right
  | pageUp
  | pageDown
  | char (c : Char)
  | other
deriving DecidableEq

/-- A key press: the code together with whether CONTROL is held
(`key_event.modifiers.contains(KeyModifiers::CONTROL)`). -/
structure KeyEvent where
  code : KeyCode
  ctrl : Bool
deriving DecidableEq

/-! ### Tabular result set (ParquetSampleData)

The struct is from src/file/sample_data.rs (not under src/); its four fields
are exactly those constructed in src/file/sql.rs `dataframe_to_sample_data`. -/

structure ParquetSampleData where
  flattened_columns : List String
  total_columns : Nat
  total_rows : Nat
  rows : List (List String)
deriving DecidableEq

/-! ### Polars collaborator model (src/file/sql.rs) -/

/-- A polars `AnyValue`: either null or a non-null value carried by its
default display form (`format!` output). -/
inductive AnyValue where
  | null
  | val (display : String)
deriving DecidableEq

/-- Whether an `AnyValue` is null (`any_value.is_null()`). -/
def AnyValue.is_null : AnyValue → Bool
  | AnyValue.null => true
  | AnyValue.val _ => false

/-- Default display form of an `AnyValue` (`format!("{any_value}")`). -/
def AnyValue.format : AnyValue → String
  | AnyValue.null => "null"
  | AnyValue.val s => s

/-- A materialized polars `Series`: a name and a fallible cell accessor
(`series.get(row_idx) : PolarsResult<AnyValue>`, errors carried as strings). -/
structure Series where
  name : String
  get : Nat → Except String AnyValue

/-- A collected polars `DataFrame`: its columns and its height. -/
structure DataFrame where
  columns : List Series
  height : Nat

/-- Column names in emitted order (`df.get_column_names()`). -/
def DataFrame.get_column_names (df : DataFrame) : List String :=
  df.columns.map Series.name

/-- src/file/sql.rs `get_value_as_string`: stringify one cell, nulls and
accessor errors both becoming the literal "NULL". -/
def get_value_as_string (col : Series) (row_idx : Nat) : String :=
  match col.get row_idx with
  | Except.ok any_value => if any_value.is_null then "NULL" else any_value.format
  | Except.error _ => "NULL"

/-- src/file/sql.rs `dataframe_to_sample_data`: normalize a collected
dataframe to the tabular result-set shape. -/
def dataframe_to_sample_data (df : DataFrame) : Except String ParquetSampleData :=
  let flattened_columns : List String := df.get_column_names
  let total_columns := flattened_columns.length
  let rows : List (List String) :=
    (List.range df.height).map fun row_idx =>
      df.columns.map fun col => get_value_as_string col row_idx
  Except.ok
    { flattened_columns := flattened_columns,
      total_columns := total_columns,
      total_rows := df.height,
      rows := rows }

/-- Rust `str::trim`: the string with whitespace stripped from both ends. -/
def strTrim (s : String) : String :=
  String.mk (((s.data.dropWhile Char.isWhitespace).reverse.dropWhile
    Char.isWhitespace).reverse)

/-- Result of a SQL query (src/file/sql.rs `SqlResult`). -/
inductive SqlResult where
  | Ok (data : ParquetSampleData)
  | Err (msg : String)
deriving DecidableEq

/-- src/file/sql.rs `run_sql`: execute a SQL query against the file at
`path`.  The external polars collaborators (lazy parquet scan, SQL context
execution, collection) are abstracted as the three function parameters over
an arbitrary lazy-frame type `Frame`. -/
def run_sql {Frame : Type} (scan_parquet : String → Except String Frame)
    (sql_execute : Frame → String → Except String Frame)
    (collect : Frame → Except String DataFrame)
    (path query : String) : SqlResult :=
  if (strTrim query).isEmpty then SqlResult.Err "Empty query"
  else
    match scan_parquet path with
    | Except.error e => SqlResult.Err e
    | Except.ok lf =>
      match sql_execute lf query with
      | Except.error e => SqlResult.Err e
      | Except.ok result_lf =>
        match collect result_lf with
        | Except.error e => SqlResult.Err e
        | Except.ok df =>
          match dataframe_to_sample_data df with
          | Except.ok data => SqlResult.Ok data
          | Except.error e => SqlResult.Err e

/-! ### Navigation state (src/app.rs `AppState`) -/

structure AppState where
  horizontal_offset : Nat
  vertical_offset : Nat
  tree_scroll_offset : Nat
  data_vertical_scroll : Nat
  visible_data_rows : Nat
  search_mode : Bool
  search_query : String
  search_filter : Option String
  filtered_sample_data : Option ParquetSampleData
  sql_query : String
  sql_result : Option SqlResult
  row_detail_row : Option Nat
  detail_scroll_offset : Nat
  detail_scroll_horizontal : Nat
deriving DecidableEq

/-- `AppState::new`: zeroed/empty defaults (visible rows fall back to 20). -/
def AppState.new : AppState :=
  { horizontal_offset := 0, vertical_offset := 0, tree_scroll_offset := 0,
    data_vertical_scroll := 0, visible_data_rows := 20, search_mode := false,
    search_query := "", search_filter := none, filtered_sample_data := none,
    sql_query := "", sql_result := none, row_detail_row := none,
    detail_scroll_offset := 0, detail_scroll_horizontal := 0 }

/-- `AppState::reset`: zero the four base offsets only. -/
def AppState.reset (st : AppState) : AppState :=
  { st with
    horizontal_offset := 0,
    vertical_offset := 0,
    tree_scroll_offset := 0,
    data_vertical_scroll := 0 }

/-- `AppState::clear_search_filter`: clear the filter and the filtered data
together. -/
def AppState.clear_search_filter (st : AppState) : AppState :=
  { st with search_filter := none, filtered_sample_data := none }

/-- `AppState::down`. -/
def AppState.down (st : AppState) : AppState :=
  { st with vertical_offset := st.vertical_offset + 1 }

/-- `AppState::up` (saturating). -/
def AppState.up (st : AppState) : AppState :=
  { st with vertical_offset := st.vertical_offset - 1 }

/-- `AppState::right`. -/
def AppState.right (st : AppState) : AppState :=
  { st with horizontal_offset := st.horizontal_offset + 1 }

/-- `AppState::left` (saturating). -/
def AppState.left (st : AppState) : AppState :=
  { st with horizontal_offset := st.horizontal_offset - 1 }

/-- `AppState::adjust_scroll_to_selection`: keep the selected row inside the
viewport, then clamp the scroll to the valid range. -/
def AppState.adjust_scroll_to_selection (st : AppState)
    (visible_rows max_rows : Nat) : AppState :=
  let scrolled : Nat :=
    if st.vertical_offset < st.data_vertical_scroll then
      st.vertical_offset
    else if st.vertical_offset ≥ st.data_vertical_scroll + visible_rows then
      st.vertical_offset - (visible_rows - 1)
    else
      st.data_vertical_scroll
  let max_scroll := max_rows - visible_rows
  { st with data_vertical_scroll := min scrolled max_scroll }

/-- `AppState::page_up`: move the selection up by `visible_rows`
(saturating), then keep it visible. -/
def AppState.page_up (st : AppState) (visible_rows max_rows : Nat) : AppState :=
  AppState.adjust_scroll_to_selection
    { st with vertical_offset := st.vertical_offset - visible_rows }
    visible_rows max_rows

/-- `AppState::page_down`: move the selection down by `visible_rows`,
clamped to `max_rows - 1`, then keep it visible. -/
def AppState.page_down (st : AppState) (visible_rows max_rows : Nat) : AppState :=
  AppState.adjust_scroll_to_selection
    { st with
      vertical_offset := min (st.vertical_offset + visible_rows) (max_rows - 1) }
    visible_rows max_rows

/-! ### Viewport synchronizer of the tree views (src/ui.rs) -/

/-- src/ui.rs `AppWidget::calculate_scroll_to_show_item`: adjusted scroll
offset keeping the selected tree item visible. -/
def calculate_scroll_to_show_item (selected_tree_idx : Option Nat)
    (current_scroll visible_items : Nat) : Nat :=
  match selected_tree_idx with
  | some idx =>
    if idx < current_scroll then idx
    else if idx ≥ current_scroll + visible_items then
      idx - (visible_items - 1)
    else current_scroll
  | none => current_scroll

/-! ### Filter collaborator (src/file/sample_data.rs, not under src/) -/

/-- Bool prefix test on character lists. -/
def charListHasPref : List Char → List Char → Bool
  | _, [] => true
  | [], _ :: _ => false
  | a :: s, b :: p => a == b && charListHasPref s p

/-- Bool substring test on character lists. -/
def charListContains : List Char → List Char → Bool
  | [], p => p.isEmpty
  | a :: s, p => charListHasPref (a :: s) p || charListContains s p

/-- Lower-case every character of a string. -/
def strToLower (s : String) : String :=
  String.mk (s.data.map Char.toLower)

/-- Bool substring test on strings. -/
def strContains (hay needle : String) : Bool :=
  charListContains hay.data needle.data

/-- Modelled from the spec: `filter_rows(query)` of the file sample provider
(its source file, src/file/sample_data.rs, is not under src/): a
case-insensitive substring match across all columns concatenated per row,
returning an independent new result set. -/
def ParquetSampleData.filter_rows (d : ParquetSampleData) (query : String) :
    ParquetSampleData :=
  let kept := d.rows.filter fun row =>
    strContains (strToLower (String.join row)) (strToLower query)
  { flattened_columns := d.flattened_columns, total_columns := d.total_columns,
    total_rows := kept.length, rows := kept }

/-! ### View strategies (tabs) -/

/-- Modelled from the spec: the fixed ordered list of view variants cycled by
the tab manager (src/tabs/mod.rs is not under src/; the order and labels are
those rendered in src/ui.rs). -/
inductive TabKind where
  | metadata
  | schema
  | rowGroups
  | visualize
  | sql
deriving DecidableEq

/-- `to_string()` labels of the view variants, as matched in src/ui.rs and
src/app.rs. -/
def TabKind.toStr : TabKind → String
  | TabKind.metadata => "Metadata"
  | TabKind.schema => "Schema"
  | TabKind.rowGroups => "Row Groups"
  | TabKind.visualize => "Visualize"
  | TabKind.sql => "SQL"

/-- Modelled from the spec: `TabManager::next` cycles forward over the fixed
ordered list of variants. -/
def TabKind.next : TabKind → TabKind
  | TabKind.metadata => TabKind.schema
  | TabKind.schema => TabKind.rowGroups
  | TabKind.rowGroups => TabKind.visualize
  | TabKind.visualize => TabKind.sql
  | TabKind.sql => TabKind.metadata

/-- Modelled from the spec: `TabManager::prev` cycles backward over the fixed
ordered list of variants. -/
def TabKind.prev : TabKind → TabKind
  | TabKind.metadata => TabKind.sql
  | TabKind.schema => TabKind.metadata
  | TabKind.rowGroups => TabKind.schema
  | TabKind.visualize => TabKind.rowGroups
  | TabKind.sql => TabKind.visualize

/-- Whether the stored query outcome is a success
(`sql_result.as_ref().is_some_and(|r| matches!(r, SqlResult::Ok(_)))`). -/
def sqlResultOk : Option SqlResult → Bool
  | some (SqlResult.Ok _) => true
  | _ => false

/-- src/tabs/sql.rs `SqlTab::on_event`: free-text query editing; the row
detail overlay opens on v/V only when the last outcome is a success. -/
def SqlTab.on_event (k : KeyEvent) (st : AppState) : AppState :=
  match k.code with
  | KeyCode.backspace => { st with sql_query := st.sql_query.dropRight 1 }
  | KeyCode.char c =>
    if c = 'v' ∨ c = 'V' then
      if sqlResultOk st.sql_result then
        { st with
          row_detail_row := some st.vertical_offset,
          detail_scroll_offset := 0,
          detail_scroll_horizontal := 0 }
      else st
    else { st with sql_query := st.sql_query.push c }
  | _ => st

/-- Modelled from the spec: the Metadata view key handler (its source file is
not under src/): read-only, no per-view bindings. -/
def MetadataTab.on_event (_k : KeyEvent) (st : AppState) : AppState := st

/-- Modelled from the spec: the Schema view key handler (its source file is
not under src/): tree navigation over selection and base offsets; no modal,
search, filter, or query state is touched. -/
def SchemaTab.on_event (k : KeyEvent) (st : AppState) : AppState :=
  match k.code with
  | KeyCode.up => st.up
  | KeyCode.down => st.down
  | KeyCode.left => st.left
  | KeyCode.right => st.right
  | _ => st

/-- Modelled from the spec: the Row-Groups view key handler (its source file
is not under src/): 2-D navigation (horizontal = row-group index, vertical =
column within group); no modal, search, filter, or query state is touched. -/
def RowGroupsTab.on_event (k : KeyEvent) (st : AppState) : AppState :=
  match k.code with
  | KeyCode.up => st.up
  | KeyCode.down => st.down
  | KeyCode.left => st.left
  | KeyCode.right => st.right
  | _ => st

/-- Modelled from the spec: the Browse ("Visualize") view key handler (its
source file is not under src/): row-table navigation over the active result
set (the filtered set when a filter is active, else the sample set), paging
through page_up/page_down, and the row-detail capability opening the overlay
at the current selection. -/
def VisualizeTab.on_event (sample : ParquetSampleData) (k : KeyEvent)
    (st : AppState) : AppState :=
  let total := (st.filtered_sample_data.getD sample).total_rows
  match k.code with
  | KeyCode.up => (st.up).adjust_scroll_to_selection st.visible_data_rows total
  | KeyCode.down => (st.down).adjust_scroll_to_selection st.visible_data_rows total
  | KeyCode.left => st.left
  | KeyCode.right => st.right
  | KeyCode.pageUp => st.page_up st.visible_data_rows total
  | KeyCode.pageDown => st.page_down st.visible_data_rows total
  | KeyCode.char c =>
    if c = 'v' ∨ c = 'V' then
      { st with
        row_detail_row := some st.vertical_offset,
        detail_scroll_offset := 0,
        detail_scroll_horizontal := 0 }
    else st
  | _ => st

/-! ### The mode coordinator (src/app.rs `App::handle_key_event`) -/

/-- The external collaborators and immutable context of a session: the
polars collaborators behind `run_sql`, the file sample data, and the path. -/
structure ExternalEnv : Type 1 where
  Frame : Type
  scan_parquet : String → Except String Frame
  sql_execute : Frame → String → Except String Frame
  collect : Frame → Except String DataFrame
  sample_data : ParquetSampleData
  file_path : String

/-- The mutable session: exit flag, active view, navigation state
(src/app.rs `App`, its borrowed context living in `ExternalEnv`). -/
structure App where
  exit : Bool
  activeTab : TabKind
  state : AppState
deriving DecidableEq

/-- `App::new` composed with `AppState::new`: the initial session state
(the tab manager starts on the first variant). -/
def App.initial : App :=
  { exit := false, activeTab := TabKind.metadata, state := AppState.new }

/-- The catch-all arm of `handle_key_event`: forward the event to the active
view strategy (`self.tabs.active_tab().on_event(key_event, &mut self.state)`). -/
def tabDispatch (env : ExternalEnv) (a : App) (k : KeyEvent) : App :=
  { a with
    state :=
      match a.activeTab with
      | TabKind.metadata => MetadataTab.on_event k a.state
      | TabKind.schema => SchemaTab.on_event k a.state
      | TabKind.rowGroups => RowGroupsTab.on_event k a.state
      | TabKind.visualize => VisualizeTab.on_event env.sample_data k a.state
      | TabKind.sql => SqlTab.on_event k a.state }

/-- The row-detail overlay branch of `handle_key_event` (active when
`row_detail_row.is_some()`): Esc closes, arrows and PgUp/PgDn scroll the
detail pane (page size 10), Ctrl+X quits. -/
def rowDetailStep (a : App) (k : KeyEvent) : App :=
  match k.code with
  | KeyCode.esc => { a with state := { a.state with row_detail_row := none } }
  | KeyCode.up =>
    { a with
      state := { a.state with detail_scroll_offset := a.state.detail_scroll_offset - 1 } }
  | KeyCode.down =>
    { a with
      state := { a.state with detail_scroll_offset := a.state.detail_scroll_offset + 1 } }
  | KeyCode.pageUp =>
    { a with
      state := { a.state with detail_scroll_offset := a.state.detail_scroll_offset - 10 } }
  | KeyCode.pageDown =>
    { a with
      state := { a.state with detail_scroll_offset := a.state.detail_scroll_offset + 10 } }
  | KeyCode.left =>
    { a with
      state := { a.state with detail_scroll_horizontal := a.state.detail_scroll_horizontal - 1 } }
  | KeyCode.right =>
    { a with
      state := { a.state with detail_scroll_horizontal := a.state.detail_scroll_horizontal + 1 } }
  | KeyCode.char c =>
    if (c = 'x' ∨ c = 'X') ∧ k.ctrl then { a with exit := true } else a
  | _ => a

/-- The search-mode branch of `handle_key_event` (active when
`search_mode`): Esc cancels, Enter commits the filter (invoking the filter
collaborator, resetting base offsets), Backspace pops, any character is
appended to the search buffer. -/
def searchStep (env : ExternalEnv) (a : App) (k : KeyEvent) : App :=
  match k.code with
  | KeyCode.esc =>
    { a with state := { a.state with search_mode := false, search_query := "" } }
  | KeyCode.enter =>
    let query := a.state.search_query
    let filtered := env.sample_data.filter_rows query
    let committed : AppState :=
      { a.state with
        search_filter := some query,
        filtered_sample_data := some filtered }
    { a with state := { committed.reset with search_mode := false } }
  | KeyCode.backspace =>
    { a with
      state := { a.state with search_query := a.state.search_query.dropRight 1 } }
  | KeyCode.char c =>
    { a with
      state := { a.state with search_query := a.state.search_query.push c } }
  | _ => a

/-- The normal-mode match of `handle_key_event`: Ctrl+X quits; Esc is
contextual (clear filter, else clear query state on the SQL view, else reset
offsets); "/" enters search mode; Enter on the SQL view runs the query;
Tab/BackTab cycle views and reset offsets; everything else goes to the
active view strategy. -/
def normalStep (env : ExternalEnv) (a : App) (k : KeyEvent) : App :=
  match k.code with
  | KeyCode.char c =>
    if (c = 'x' ∨ c = 'X') ∧ k.ctrl then { a with exit := true }
    else if c = '/' then
      { a with state := { a.state with search_mode := true, search_query := "" } }
    else tabDispatch env a k
  | KeyCode.esc =>
    if (a.state.search_filter).isSome then
      { a with state := (a.state.clear_search_filter).reset }
    else if TabKind.toStr a.activeTab = "SQL" then
      { a with state := { a.state with sql_query := "", sql_result := none } }
    else { a with state := a.state.reset }
  | KeyCode.enter =>
    if TabKind.toStr a.activeTab = "SQL" then
      { a with
        state :=
          { a.state with
            sql_result :=
              some (run_sql env.scan_parquet env.sql_execute env.collect
                env.file_path a.state.sql_query) } }
    else tabDispatch env a k
  | KeyCode.tab => { a with activeTab := a.activeTab.next, state := a.state.reset }
  | KeyCode.backTab => { a with activeTab := a.activeTab.prev, state := a.state.reset }
  | _ => tabDispatch env a k

/-- src/app.rs `App::handle_key_event`: the top-level input router, checking
the row-detail overlay first, then search mode, then normal-mode handling. -/
def handleKeyEvent (env : ExternalEnv) (a : App) (k : KeyEvent) : App :=
  if (a.state.row_detail_row).isSome then rowDetailStep a k
  else if a.state.search_mode then searchStep env a k
  else normalStep env a k

/-- Sessions reachable from the initial state by key-event handling. -/
inductive ReachableApp (env : ExternalEnv) : App → Prop where
  | init : ReachableApp env App.initial
  | step (a : App) (k : KeyEvent) :
      ReachableApp env a → ReachableApp env (handleKeyEvent env a k)

/-- A concrete environment for witnesses: an empty sample set and failing
polars collaborators. -/
def env0 : ExternalEnv :=
  { Frame := Unit,
    scan_parquet := fun _ => Except.error "no file",
    sql_execute := fun _ _ => Except.error "no context",
    collect := fun _ => Except.error "no frame",
    sample_data :=
      { flattened_columns := [], total_columns := 0, total_rows := 0, rows := [] },
    file_path := "data.parquet" }

/-- A navigation state differing from the defaults only in selection and
data scroll, for concrete instantiations. -/
def sampleNavState (v s : Nat) : AppState :=
  { AppState.new with vertical_offset := v, data_vertical_scroll := s }

/-- A one-cell result set for concrete instantiations. -/
def sampleSet1 : ParquetSampleData :=
  { flattened_columns := ["a"], total_columns := 1, total_rows := 1, rows := [["1"]] }

/-- A navigation state on the SQL view with a successful query outcome. -/
def sqlOkState : AppState :=
  { AppState.new with sql_result := some (SqlResult.Ok sampleSet1), vertical_offset := 2 }

/-- A series whose cells are all the displayed value "1". -/
def seriesA : Series :=
  { name := "a", get := fun _ => Except.ok (AnyValue.val "1") }

/-- A series whose cells are all null. -/
def seriesB : Series :=
  { name := "b", get := fun _ => Except.ok AnyValue.null }

/-- A two-column, two-row collected dataframe for concrete instantiations. -/
def df0 : DataFrame := { columns := [seriesA, seriesB], height := 2 }

/-- The normalization of `df0`. -/
def sample0 : ParquetSampleData :=
  { flattened_columns := ["a", "b"], total_columns := 2, total_rows := 2,
    rows := [["1", "NULL"], ["1", "NULL"]] }

/-- The row-detail branch never touches the search or filter state. -/
lemma rowDetailStep_fields (a : App) (k : KeyEvent) :
    (rowDetailStep a k).state.search_mode = a.state.search_mode ∧
    (rowDetailStep a k).state.search_filter = a.state.search_filter ∧
    (rowDetailStep a k).state.filtered_sample_data = a.state.filtered_sample_data := by
  obtain ⟨code, ctrl⟩ := k
  cases code <;> simp [rowDetailStep] <;> split_ifs <;> simp

/-- The search-mode branch never touches the row-detail overlay. -/
lemma searchStep_row_detail (env : ExternalEnv) (a : App) (k : KeyEvent) :
    (searchStep env a k).state.row_detail_row = a.state.row_detail_row := by
  obtain ⟨code, ctrl⟩ := k
  cases code <;> simp [searchStep, AppState.reset]

/-- The search-mode branch keeps the filter and the filtered data in sync:
the commit arm sets both, every other arm touches neither. -/
lemma searchStep_filter_sync (env : ExternalEnv) (a : App) (k : KeyEvent)
    (h : (a.state.search_filter).isSome = (a.state.filtered_sample_data).isSome) :
    ((searchStep env a k).state.search_filter).isSome =
      ((searchStep env a k).state.filtered_sample_data).isSome := by
  obtain ⟨code, ctrl⟩ := k
  cases code <;> simp [searchStep, AppState.reset, h]

/-- No view strategy touches the search mode, the filter, or the filtered
data. -/
lemma tabDispatch_fields (env : ExternalEnv) (a : App) (k : KeyEvent) :
    (tabDispatch env a k).state.search_mode = a.state.search_mode ∧
    (tabDispatch env a k).state.search_filter = a.state.search_filter ∧
    (tabDispatch env a k).state.filtered_sample_data = a.state.filtered_sample_data := by
  obtain ⟨code, ctrl⟩ := k
  cases htab : a.activeTab <;> cases code <;>
    simp [tabDispatch, htab, MetadataTab.on_event, SchemaTab.on_event,
      RowGroupsTab.on_event, VisualizeTab.on_event, SqlTab.on_event,
      AppState.up, AppState.down, AppState.left, AppState.right,
      AppState.page_up, AppState.page_down, AppState.adjust_scroll_to_selection] <;>
    split_ifs <;> simp

/-- Dispatching to a view strategy cannot enter search mode. -/
lemma tabDispatch_mutex (env : ExternalEnv) (a : App) (k : KeyEvent)
    (hsm : a.state.search_mode = false) :
    (tabDispatch env a k).state.search_mode = true →
      (tabDispatch env a k).state.row_detail_row = none := by
  intro hq
  rw [(tabDispatch_fields env a k).1, hsm] at hq
  cases hq

/-- Normal-mode handling preserves the modal mutual exclusion. -/
lemma normalStep_mutex (env : ExternalEnv) (a : App) (k : KeyEvent)
    (hsm : a.state.search_mode = false) (hrd : a.state.row_detail_row = none) :
    (normalStep env a k).state.search_mode = true →
      (normalStep env a k).state.row_detail_row = none := by
  obtain ⟨code, ctrl⟩ := k
  cases code
  case esc =>
    simp only [normalStep]
    split_ifs <;>
      simp [AppState.clear_search_filter, AppState.reset, hsm]
  case enter =>
    simp only [normalStep]
    split_ifs
    · simp [hsm]
    · exact tabDispatch_mutex env a _ hsm
  case tab => simp [normalStep, AppState.reset, hsm]
  case backTab => simp [normalStep, AppState.reset, hsm]
  case char c =>
    simp only [normalStep]
    split_ifs
    · simp [hsm]
    · simp [hrd]
    · exact tabDispatch_mutex env a _ hsm
  all_goals exact tabDispatch_mutex env a _ hsm

/-- One key event preserves the modal mutual exclusion. -/
lemma handleKeyEvent_mutex (env : ExternalEnv) (a : App) (k : KeyEvent)
    (h : a.state.search_mode = true → a.state.row_detail_row = none) :
    (handleKeyEvent env a k).state.search_mode = true →
      (handleKeyEvent env a k).state.row_detail_row = none := by
  unfold handleKeyEvent
  by_cases hrd : (a.state.row_detail_row).isSome
  · have hsm : a.state.search_mode = false := by
      cases hq : a.state.search_mode
      · rfl
      · rw [h hq] at hrd; cases hrd
    simp only [hrd, if_true]
    intro hx
    rw [(rowDetailStep_fields a k).1, hsm] at hx
    cases hx
  · rw [Option.not_isSome_iff_eq_none] at hrd
    by_cases hsm : a.state.search_mode
    · simp only [hrd, Option.isSome_none, Bool.false_eq_true, if_false, hsm, if_true]
      intro _
      rw [searchStep_row_detail env a k]
      exact hrd
    · rw [Bool.not_eq_true] at hsm
      simp only [hrd, Option.isSome_none, Bool.false_eq_true, if_false, hsm]
      exact normalStep_mutex env a k hsm hrd

/-- Dispatching to a view strategy preserves the filter/filtered-data sync. -/
lemma tabDispatch_filter_sync (env : ExternalEnv) (a : App) (k : KeyEvent)
    (h : (a.state.search_filter).isSome = (a.state.filtered_sample_data).isSome) :
    ((tabDispatch env a k).state.search_filter).isSome =
      ((tabDispatch env a k).state.filtered_sample_data).isSome := by
  rw [(tabDispatch_fields env a k).2.1, (tabDispatch_fields env a k).2.2]
  exact h

/-- Normal-mode handling preserves the filter/filtered-data sync. -/
lemma normalStep_filter_sync (env : ExternalEnv) (a : App) (k : KeyEvent)
    (h : (a.state.search_filter).isSome = (a.state.filtered_sample_data).isSome) :
    ((normalStep env a k).state.search_filter).isSome =
      ((normalStep env a k).state.filtered_sample_data).isSome := by
  obtain ⟨code, ctrl⟩ := k
  cases code
  case esc =>
    simp only [normalStep]
    split_ifs <;>
      simp [AppState.clear_search_filter, AppState.reset, h]
  case enter =>
    simp only [normalStep]
    split_ifs
    · simp [h]
    · exact tabDispatch_filter_sync env a _ h
  case tab => simp [normalStep, AppState.reset, h]
  case backTab => simp [normalStep, AppState.reset, h]
  case char c =>
    simp only [normalStep]
    split_ifs
    · simp [h]
    · simp [h]
    · exact tabDispatch_filter_sync env a _ h
  all_goals exact tabDispatch_filter_sync env a _ h

/-- One key event preserves the filter/filtered-data sync. -/
lemma handleKeyEvent_filter_sync (env : ExternalEnv) (a : App) (k : KeyEvent)
    (h : (a.state.search_filter).isSome = (a.state.filtered_sample_data).isSome) :
    ((handleKeyEvent env a k).state.search_filter).isSome =
      ((handleKeyEvent env a k).state.filtered_sample_data).isSome := by
  unfold handleKeyEvent
  split_ifs
  · rw [(rowDetailStep_fields a k).2.1, (rowDetailStep_fields a k).2.2]
    exact h
  · exact searchStep_filter_sync env a k h
  · exact normalStep_filter_sync env a k h

/-- Claim C1: `adjust_scroll_to_selection` with selection v, scroll s, a
visible window of at least 1, and total item count: the new scroll is v when
v < s, is v − visible + 1 when v ≥ s + visible, and is s otherwise, in every
case clamped into [0, max(0, total − visible)]; in particular total = 0 and
visible ≥ total both force scroll 0. -/
theorem C1_adjust_scroll_to_selection_spec (st : AppState) (visible total : Nat)
    (_hv : 1 ≤ visible) :
    ((st.adjust_scroll_to_selection visible total).data_vertical_scroll =
      min (if st.vertical_offset < st.data_vertical_scroll then st.vertical_offset
        else if st.data_vertical_scroll + visible ≤ st.vertical_offset then
          st.vertical_offset - visible + 1
        else st.data_vertical_scroll) (total - visible)) ∧
    (total = 0 → (st.adjust_scroll_to_selection visible total).data_vertical_scroll = 0) ∧
    (total ≤ visible → (st.adjust_scroll_to_selection visible total).data_vertical_scroll = 0) := by
  refine ⟨?_, fun h => ?_, fun h => ?_⟩ <;>
    simp [AppState.adjust_scroll_to_selection] <;>
    split_ifs <;> omega

/-- Witness for C1 at the 12-item, 5-visible, selection-9 instance: the new
scroll is 5. -/
theorem C1_witness :
    ((sampleNavState 9 0).adjust_scroll_to_selection 5 12).data_vertical_scroll = 5 :=
  ((C1_adjust_scroll_to_selection_spec (sampleNavState 9 0) 5 12 (by decide)).1).trans
    (by decide)

/-- Counterexample to C2 as stated: at selection 5, scroll 0, visible 3,
total 4, the tree-view synchronizer returns 5 − 3 + 1 = 3 while the
row-table synchronizer clamps to total − visible = 1. -/
theorem C2_counterexample :
    ¬ (calculate_scroll_to_show_item (some 5) 0 3 =
      ((sampleNavState 5 0).adjust_scroll_to_selection 3 4).data_vertical_scroll) := by
  decide

/-- Claim C2 as amended: both synchronizers share the same branch algorithm,
but only the row-table one clamps — `adjust_scroll_to_selection` equals
`calculate_scroll_to_show_item (some selection)` followed by the clamp to
[0, max(0, total − visible)]. -/
theorem C2_amended_sync (st : AppState) (visible total : Nat) (_hv : 1 ≤ visible) :
    (st.adjust_scroll_to_selection visible total).data_vertical_scroll =
      min (calculate_scroll_to_show_item (some st.vertical_offset)
        st.data_vertical_scroll visible) (total - visible) := by
  simp [AppState.adjust_scroll_to_selection, calculate_scroll_to_show_item]

/-- Witness for the amended C2 at the counterexample instance. -/
theorem C2_amended_witness :
    ((sampleNavState 5 0).adjust_scroll_to_selection 3 4).data_vertical_scroll =
      min (calculate_scroll_to_show_item (some (sampleNavState 5 0).vertical_offset)
        (sampleNavState 5 0).data_vertical_scroll 3) (4 - 3) :=
  C2_amended_sync (sampleNavState 5 0) 3 4 (by decide)

/-- Counterexample to C3 as stated: entering search mode with "/" and then
pressing Ctrl+X does not exit — the character is appended to the search
buffer instead. -/
theorem C3_counterexample :
    (handleKeyEvent env0 (handleKeyEvent env0 App.initial
        { code := KeyCode.char '/', ctrl := false })
      { code := KeyCode.char 'x', ctrl := true }).exit = false ∧
    (handleKeyEvent env0 (handleKeyEvent env0 App.initial
        { code := KeyCode.char '/', ctrl := false })
      { code := KeyCode.char 'x', ctrl := true }).state.search_query = "x" ∧
    (handleKeyEvent env0 App.initial
      { code := KeyCode.char '/', ctrl := false }).state.search_mode = true := by
  decide

/-- Claim C3 as amended: Ctrl+X terminates the session from Normal and from
RowDetail (also when both overlays would be marked active), but in
SearchEntry there is no terminate check — the x is appended to the search
buffer and the exit flag is unchanged. -/
theorem C3_amended_terminate (env : ExternalEnv) (a : App) :
    ((a.state.search_mode = true → (a.state.row_detail_row).isSome = true) →
      (handleKeyEvent env a { code := KeyCode.char 'x', ctrl := true }).exit = true) ∧
    (a.state.search_mode = true → a.state.row_detail_row = none →
      (handleKeyEvent env a { code := KeyCode.char 'x', ctrl := true }).exit = a.exit ∧
      (handleKeyEvent env a { code := KeyCode.char 'x', ctrl := true }).state.search_query =
        a.state.search_query.push 'x') := by
  constructor
  · intro himp
    by_cases hrd : (a.state.row_detail_row).isSome
    · simp [handleKeyEvent, hrd, rowDetailStep]
    · have hsm : a.state.search_mode = false := by
        cases hq : a.state.search_mode
        · rfl
        · exact absurd (himp hq) hrd
      simp [handleKeyEvent, hrd, hsm, normalStep]
  · intro hsm hrd
    simp [handleKeyEvent, hsm, hrd, searchStep]

/-- Claim C4: in every session reachable from the initial state by key-event
handling, the SearchEntry and RowDetail overlays are never both active. -/
theorem C4_modal_mutual_exclusion (env : ExternalEnv) (a : App)
    (h : ReachableApp env a) :
    ¬ (a.state.search_mode = true ∧ (a.state.row_detail_row).isSome = true) := by
  have key : a.state.search_mode = true → a.state.row_detail_row = none := by
    induction h with
    | init => intro _; rfl
    | step a k _ ih => exact handleKeyEvent_mutex env a k ih
  rintro ⟨hsm, hrd⟩
  rw [key hsm] at hrd
  cases hrd

/-- Witness for C4 at the initial state. -/
theorem C4_witness :
    ¬ (App.initial.state.search_mode = true ∧
      ((App.initial.state.row_detail_row).isSome = true)) :=
  C4_modal_mutual_exclusion env0 App.initial ReachableApp.init

/-- Claim C5: in every session reachable from the initial state by key-event
handling, a search filter is stored exactly when filtered sample data is
stored. -/
theorem C5_filter_data_sync (env : ExternalEnv) (a : App) (h : ReachableApp env a) :
    (a.state.search_filter).isSome = (a.state.filtered_sample_data).isSome := by
  induction h with
  | init => rfl
  | step a k _ ih => exact handleKeyEvent_filter_sync env a k ih

/-- Witness for C5 at the initial state. -/
theorem C5_witness :
    ((App.initial.state.search_filter).isSome =
      (App.initial.state.filtered_sample_data).isSome) :=
  C5_filter_data_sync env0 App.initial ReachableApp.init

/-- Claim C6: in Normal mode the cancel key acts by priority, one branch per
press — with a filter active it clears the filter and the filtered data (and
resets the base offsets); else on the SQL view it clears the query buffer
and outcome; else it resets the base offsets — and nothing else changes. -/
theorem C6_esc_contextual (env : ExternalEnv) (a : App) (ctrl : Bool)
    (h1 : a.state.row_detail_row = none) (h2 : a.state.search_mode = false) :
    ((a.state.search_filter).isSome = true →
      handleKeyEvent env a { code := KeyCode.esc, ctrl := ctrl } =
        { a with
          state :=
            { a.state with
              search_filter := none,
              filtered_sample_data := none,
              horizontal_offset := 0,
              vertical_offset := 0,
              tree_scroll_offset := 0,
              data_vertical_scroll := 0 } }) ∧
    (a.state.search_filter = none → TabKind.toStr a.activeTab = "SQL" →
      handleKeyEvent env a { code := KeyCode.esc, ctrl := ctrl } =
        { a with state := { a.state with sql_query := "", sql_result := none } }) ∧
    (a.state.search_filter = none → ¬ TabKind.toStr a.activeTab = "SQL" →
      handleKeyEvent env a { code := KeyCode.esc, ctrl := ctrl } =
        { a with
          state :=
            { a.state with
              horizontal_offset := 0,
              vertical_offset := 0,
              tree_scroll_offset := 0,
              data_vertical_scroll := 0 } }) := by
  refine ⟨fun hf => ?_, fun hf hsql => ?_, fun hf hsql => ?_⟩
  · simp [handleKeyEvent, h1, h2, normalStep, hf,
      AppState.clear_search_filter, AppState.reset]
  · simp [handleKeyEvent, h1, h2, normalStep, hf, hsql,
      AppState.clear_search_filter, AppState.reset]
  · simp [handleKeyEvent, h1, h2, normalStep, hf, hsql,
      AppState.clear_search_filter, AppState.reset]

/-- Witness for C6 at the initial state (Metadata view, no filter): Esc
resets the base offsets. -/
theorem C6_witness :
    handleKeyEvent env0 App.initial { code := KeyCode.esc, ctrl := false } =
      { App.initial with
        state :=
          { App.initial.state with
            horizontal_offset := 0,
            vertical_offset := 0,
            tree_scroll_offset := 0,
            data_vertical_scroll := 0 } } :=
  (C6_esc_contextual env0 App.initial false rfl rfl).2.2 rfl (by decide)

/-- Claim C7: for every query whose trimmed form is empty, `run_sql` returns
exactly Err "Empty query", for every choice of the scan / execute / collect
collaborators — so none of them is ever consulted. -/
theorem C7_run_sql_empty_query {Frame : Type}
    (scan_parquet : String → Except String Frame)
    (sql_execute : Frame → String → Except String Frame)
    (collect : Frame → Except String DataFrame)
    (path query : String) (h : (strTrim query).isEmpty = true) :
    run_sql scan_parquet sql_execute collect path query = SqlResult.Err "Empty query" := by
  simp [run_sql, h]

/-- Witness for C7 on a whitespace-only query. -/
theorem C7_witness :
    ((strTrim "   ").isEmpty = true) ∧
    run_sql env0.scan_parquet env0.sql_execute env0.collect "data.parquet" "   " =
      SqlResult.Err "Empty query" :=
  ⟨by decide,
    C7_run_sql_empty_query env0.scan_parquet env0.sql_execute env0.collect
      "data.parquet" "   " (by decide)⟩

/-- Claim C8: `dataframe_to_sample_data` preserves the column names in
emitted order and the rows in order (row i is the stringification of
dataframe row i), satisfies the rectangular invariant (total_rows equals
rows.length, every row as long as the column count), and stringifies null
cells to the literal "NULL". -/
theorem C8_dataframe_to_sample_data_spec (df : DataFrame) (d : ParquetSampleData)
    (c : Series) (i : Nat)
    (h : dataframe_to_sample_data df = Except.ok d)
    (hnull : c.get i = Except.ok AnyValue.null) :
    d.flattened_columns = df.get_column_names ∧
    d.total_columns = df.get_column_names.length ∧
    d.total_rows = d.rows.length ∧
    (d.rows.all fun r => r.length == d.total_columns) = true ∧
    d.rows = (List.range df.height).map
      (fun row_idx => df.columns.map fun col => get_value_as_string col row_idx) ∧
    get_value_as_string c i = "NULL" := by
  have hd : d =
      { flattened_columns := df.get_column_names,
        total_columns := df.get_column_names.length,
        total_rows := df.height,
        rows := (List.range df.height).map
          (fun row_idx => df.columns.map fun col => get_value_as_string col row_idx) } := by
    simp [dataframe_to_sample_data] at h
    exact h.symm
  subst hd
  refine ⟨rfl, rfl, by simp, ?_, rfl, ?_⟩
  · simp [List.all_eq_true, DataFrame.get_column_names]
  · simp [get_value_as_string, hnull, AnyValue.is_null]

/-- Witness for C8 on a two-column dataframe with a null column. -/
theorem C8_witness :
    dataframe_to_sample_data df0 = Except.ok sample0 ∧
    get_value_as_string seriesB 0 = "NULL" :=
  ⟨by rfl, (C8_dataframe_to_sample_data_spec df0 sample0 seriesB 0 (by rfl) rfl).2.2.2.2.2⟩

/-- Claim C9: with a positive page size p and v + p ≤ m − 1, `page_down`
followed by `page_up` with the same (p, m) restores the original
vertical_offset. -/
theorem C9_page_down_page_up (st : AppState) (p m : Nat) (_hp : 0 < p)
    (h : st.vertical_offset + p ≤ m - 1) :
    ((st.page_down p m).page_up p m).vertical_offset = st.vertical_offset := by
  simp [AppState.page_down, AppState.page_up, AppState.adjust_scroll_to_selection]
  omega

/-- Witness for C9 at offset 0, page size 10, 100 rows. -/
theorem C9_witness :
    (((sampleNavState 0 0).page_down 10 100).page_up 10 100).vertical_offset =
      (sampleNavState 0 0).vertical_offset :=
  C9_page_down_page_up (sampleNavState 0 0) 10 100 (by decide) (by decide)

/-- Claim C10: on the SQL view, v and V never reach the query buffer — with
a successful query outcome they open the row-detail overlay at the current
selection and zero both detail offsets, and otherwise they change nothing. -/
theorem C10_sql_tab_v_key (st : AppState) (c : Char) (ctrl : Bool)
    (hc : c = 'v' ∨ c = 'V') :
    ((SqlTab.on_event { code := KeyCode.char c, ctrl := ctrl } st).sql_query =
      st.sql_query) ∧
    (sqlResultOk st.sql_result = true →
      SqlTab.on_event { code := KeyCode.char c, ctrl := ctrl } st =
        { st with
          row_detail_row := some st.vertical_offset,
          detail_scroll_offset := 0,
          detail_scroll_horizontal := 0 }) ∧
    (sqlResultOk st.sql_result = false →
      SqlTab.on_event { code := KeyCode.char c, ctrl := ctrl } st = st) := by
  rcases hc with rfl | rfl <;>
    cases hs : sqlResultOk st.sql_result <;>
      simp [SqlTab.on_event, hs]

/-- Witness for C10 on a state with a successful outcome. -/
theorem C10_witness :
    SqlTab.on_event { code := KeyCode.char 'v', ctrl := false } sqlOkState =
      { sqlOkState with
        row_detail_row := some sqlOkState.vertical_offset,
        detail_scroll_offset := 0,
        detail_scroll_horizontal := 0 } :=
  (C10_sql_tab_v_key sqlOkState 'v' false (Or.inl rfl)).2.1 rfl
